import Mathlib

/-!
Verification of the audio calibration and level-accurate presentation engine
of the BASE GUI 3 repository (`controller.py`, `models/filehandler.py`).

The controller and file-handler logic is embedded directly from the source.
Collaborator models that the repository imports but whose files are not part
of the sources (`audiomodel.Audio`, `calmodel.CalModel`) are modelled from the
specification, each marked `Modelled from the spec:` in its doc comment.
-/

/-- Exceptions that can arise in the embedded fragment of the program.
`valueError`, `keyError`, `attributeError`, `permissionError` and `genericExc`
stand for Python's built-in ValueError, KeyError, AttributeError,
PermissionError and bare Exception; the rest are the classified audio
exceptions of `exceptions.audio_exceptions`, plus the built-in
FileNotFoundError used for a missing stimulus file. -/
inductive PyExc
  | valueError
  | keyError
  | attributeError
  | permissionError
  | genericExc
  | fileNotFound
  | invalidAudioType
  | missingSamplingRate
  | invalidAudioDevice
  | invalidRouting
  | clipping
  deriving DecidableEq, Repr

/-- Python whitespace characters recognised by `str.split()` with no
separator argument (ASCII subset: space, tab, newline, carriage return,
vertical tab, form feed). -/
def pyIsSpace (c : Char) : Bool :=
  c = ' ' || c = '\t' || c = '\n' || c = '\r' || c = '\x0b' || c = '\x0c'

/-- Helper for `pySplit`: walk the characters, `cur` holding the reversed
characters of the token being read. -/
def pySplitAux : List Char → List Char → List String
  | [], cur => if cur.isEmpty then [] else [⟨cur.reverse⟩]
  | c :: rest, cur =>
      if pyIsSpace c then
        (if cur.isEmpty then [] else [⟨cur.reverse⟩]) ++ pySplitAux rest []
      else
        pySplitAux rest (c :: cur)

/-- Python `str.split()` with no arguments: split on runs of whitespace and
discard empty tokens. -/
def pySplit (s : String) : List String :=
  pySplitAux s.data []

/-- Value of a list of ASCII digit characters read in base 10. -/
def digitsToNat (cs : List Char) : Nat :=
  cs.foldl (fun acc c => acc * 10 + (c.toNat - '0'.toNat)) 0

/-- Python `int(token)` on a whitespace-free token: an optional sign followed
by at least one ASCII digit succeeds; anything else raises ValueError
(`none`). -/
def pyIntOfString? (s : String) : Option Int :=
  match s.toList with
  | [] => none
  | '+' :: rest =>
      if rest ≠ [] ∧ rest.all Char.isDigit then some (digitsToNat rest) else none
  | '-' :: rest =>
      if rest ≠ [] ∧ rest.all Char.isDigit then some (-(digitsToNat rest : Int)) else none
  | cs =>
      if cs.all Char.isDigit then some (digitsToNat cs) else none

/-- The list comprehension `[int(x) for x in routing]` of
`controller._format_routing`: converts tokens left to right, raising
ValueError at the first non-numeric token. -/
def intTokens : List String → Except PyExc (List Int)
  | [] => .ok []
  | t :: ts =>
      match pyIntOfString? t with
      | none => .error .valueError
      | some n =>
          match intTokens ts with
          | .error e => .error e
          | .ok ns => .ok (n :: ns)

/-- `controller._format_routing`: split the routing text on whitespace and
convert each token to an integer channel index. -/
def format_routing (routing : String) : Except PyExc (List Int) :=
  intTokens (pySplit routing)

deriving instance DecidableEq for Except

/-- The exception classes caught by the except clauses of `controller._play`:
`InvalidAudioDevice`, `InvalidRouting` and `Clipping`. Any other exception
raised inside the try block propagates out unhandled. -/
def playCaught : PyExc → Bool
  | .invalidAudioDevice => true
  | .invalidRouting => true
  | .clipping => true
  | _ => false

/-- The in-memory audio object of `models.audiomodel.Audio`. That module is
not among the repository's source files, so its data is modelled from the
spec (§3 AudioAsset, §4.4 Audio Object): a sample buffer of nominal
amplitudes, the channel count, and whether playback is in progress. Sample
amplitudes are modelled as exact rationals. -/
structure Audio where
  samples : List ℚ
  channel_count : Nat
  playing : Bool
  deriving DecidableEq, Repr

/-- Modelled from the spec (§4.4 `apply_gain`): multiplies every sample by
the linear scale factor derived from the adjusted dB level. The dB-to-linear
conversion `10^(dB/20)` is kept abstract: `scale` is that linear factor. -/
def Audio.apply_gain (a : Audio) (scale : ℚ) : Audio :=
  { a with samples := a.samples.map (· * scale) }

/-- Modelled from the spec (§4.4 `check_clipping`): true if any post-gain
sample magnitude exceeds the full-scale amplitude 1.0. -/
def Audio.check_clipping (a : Audio) : Bool :=
  a.samples.any fun s => decide (1 < |s|)

/-- Modelled from the spec (§4.4 `stop`): halts in-progress playback if any;
a no-op (reported, not fatal) if no playback is active. It never raises. -/
def Audio.stop (a : Audio) : Audio :=
  { a with playing := false }

/-- The result of `Audio.play`: the in-memory audio object after the call
(the gain is applied in place), the samples submitted to the output device
(`none` when no submission occurred), and the exception raised, if any. -/
structure PlayResult where
  audio : Audio
  submitted : Option (List ℚ)
  error : Option PyExc
  deriving DecidableEq, Repr

/-- Modelled from the spec (§4.4 `play`): fails with `InvalidAudioDevice` if
the device id does not name an available output device (`deviceOk` abstracts
that membership test); otherwise applies gain in place, validates the routing
length against this asset's channel count (`InvalidRouting` on mismatch),
runs the clipping check (`Clipping` on detection, with no device submission),
and only if all checks pass submits the gain-applied samples to the device. -/
def Audio.play (a : Audio) (scale : ℚ) (deviceOk : Bool)
    (routing : List Int) : PlayResult :=
  if ¬ deviceOk then
    ⟨a, none, some .invalidAudioDevice⟩
  else
    let g := a.apply_gain scale
    if routing.length ≠ a.channel_count then
      ⟨g, none, some .invalidRouting⟩
    else if g.check_clipping then
      ⟨g, none, some .clipping⟩
    else
      ⟨{ g with playing := true }, some g.samples, none⟩

/-- The controller state used by the audio functions of `controller.py`:
the current audio object `self.a` (absent until the first successful
`_create_audio_object`), and the session parameters read during playback
(`audio_device` abstracted to its validity, and `channel_routing`). -/
structure CtrlState where
  audioObj : Option Audio
  deviceOk : Bool
  channel_routing : String
  deriving DecidableEq, Repr

/-- The observable outcome of `controller._play` / `controller.present_audio`:
the state after the call, the samples submitted to the device (if any), the
waveform handed to `plot_waveform` (if it was called), and the exception that
escaped uncaught (if any). -/
structure CtrlOutcome where
  state : CtrlState
  submitted : Option (List ℚ)
  plotted : Option (List ℚ)
  uncaught : Option PyExc
  deriving DecidableEq, Repr

/-- `controller._play`: inside a try block, looks up `self.a.play` (raising
AttributeError when no audio object exists), formats the channel routing
from the session parameters (possibly raising ValueError), and calls the
play method. The except clauses catch `InvalidAudioDevice` and
`InvalidRouting` (message box, reopen the audio settings dialog) and
`Clipping` (message box, then `self.a.plot_waveform` on the clipped
in-memory waveform); the AttributeError and ValueError match no except
clause and propagate uncaught. `scale` is the
linear gain factor for the `pres_level` argument. -/
def controller_play (s : CtrlState) (scale : ℚ) : CtrlOutcome :=
  match s.audioObj with
  | none => ⟨s, none, none, some .attributeError⟩
  | some a =>
      match format_routing s.channel_routing with
      | .error e => ⟨s, none, none, some e⟩
      | .ok routing =>
          let r := a.play scale s.deviceOk routing
          let s' := { s with audioObj := some r.audio }
          match r.error with
          | none => ⟨s', r.submitted, none, none⟩
          | some e =>
              if e = .clipping then ⟨s', none, some r.audio.samples, none⟩
              else if playCaught e then ⟨s', none, none, none⟩
              else ⟨s', none, none, some e⟩

/-- The outcome of constructing `audiomodel.Audio` inside
`controller._create_audio_object`; the constructor itself is external, so the
embedding takes its outcome as an input. -/
inductive LoadOutcome
  | ok (a : Audio)
  | err (e : PyExc)
  deriving DecidableEq, Repr

/-- `controller._create_audio_object`: assigns the new audio object to
`self.a` on success. Its except clauses catch `FileNotFoundError` (message
box, reopen the session dialog, then plain `return` — the exception is
swallowed and `self.a` is left as it was) while `InvalidAudioType` and
`MissingSamplingRate` are re-raised; any other exception also propagates. -/
def create_audio_object (s : CtrlState) (load : LoadOutcome) :
    Except PyExc CtrlState :=
  match load with
  | .ok a => .ok { s with audioObj := some a }
  | .err .fileNotFound => .ok s
  | .err e => .error e

/-- The outcome of `controller.present_audio`, additionally recording whether
`self._play` was invoked. -/
structure PresentOutcome where
  outcome : CtrlOutcome
  playInvoked : Bool
  deriving DecidableEq, Repr

/-- `controller.present_audio`: calls `_create_audio_object` inside a try
block catching `InvalidAudioType` and `MissingSamplingRate` (message box,
then `return`, so `_play` is skipped); when `_create_audio_object` returns
normally, `_play` runs. -/
def present_audio (s : CtrlState) (load : LoadOutcome) (scale : ℚ) :
    PresentOutcome :=
  match create_audio_object s load with
  | .error .invalidAudioType => ⟨⟨s, none, none, none⟩, false⟩
  | .error .missingSamplingRate => ⟨⟨s, none, none, none⟩, false⟩
  | .error e => ⟨⟨s, none, none, some e⟩, false⟩
  | .ok s' => ⟨controller_play s' scale, true⟩

/-- `controller.stop_audio`: calls `self.a.stop()` inside a try block that
catches the AttributeError arising when no audio object exists (a message is
printed instead). The second component is the exception that escapes, if
any. -/
def stop_audio (s : CtrlState) : CtrlState × Option PyExc :=
  match s.audioObj with
  | none => (s, none)
  | some a => ({ s with audioObj := some a.stop }, none)

/-- A stale audio object left over from a previous successful presentation:
one channel, a single half-scale sample, not playing. -/
def staleAudio : Audio := ⟨[1], 1, false⟩

/-- Controller state holding the stale audio object, a valid device and the
routing text "1". -/
def staleState : CtrlState := ⟨some staleAudio, true, "1"⟩

/-- Controller state before any audio object has ever been created. -/
def emptyState : CtrlState := ⟨none, true, "1"⟩

/-- An audio object that clips under a gain factor of 2: a single full-scale
sample. -/
def clipAudio : Audio := ⟨[1], 1, false⟩

/-- Controller state holding `clipAudio`, a valid device and routing "1". -/
def clipState : CtrlState := ⟨some clipAudio, true, "1"⟩

/-- Modelled from the spec (§4.1 Offset Calculator): `calmodel.CalModel.calc_offset`
is called by `controller._calc_offset` but `models/calmodel.py` is not among
the repository's source files. `slm_offset_dB = cal_level_dB -
slm_reading_dB`, exact arithmetic, no error conditions. Levels are modelled
as exact rationals. -/
def compute_offset (cal_level_dB slm_reading_dB : ℚ) : ℚ :=
  cal_level_dB - slm_reading_dB

/-- Modelled from the spec (§4.2 Level Converter): `calmodel.CalModel.calc_level`
is called by `controller._calc_level` but `models/calmodel.py` is not among
the repository's source files. `adjusted_level_dB = desired_level_dB +
slm_offset_dB`, pure, no memoization, no error conditions. -/
def compute_adjusted_level (desired_level_dB slm_offset_dB : ℚ) : ℚ :=
  desired_level_dB + slm_offset_dB

/-- The session parameters read and written during level conversion. -/
structure LevelPars where
  slm_offset : ℚ
  adjusted_level_dB : ℚ
  deriving DecidableEq, Repr

/-- `controller._calc_level`, with the underlying `calmodel.CalModel.calc_level`
modelled from the spec (§4.2): recompute `adjusted_level_dB` from the trial's
desired SPL and the stored offset and store it in the session parameters
(then saved by `_save_sessionpars`). -/
def calc_level (pars : LevelPars) (desired_spl : ℚ) : LevelPars :=
  { pars with
    adjusted_level_dB := compute_adjusted_level desired_spl pars.slm_offset }

/-- A row of the stimulus matrix: the audio file path (column 0) and the
desired presentation level (column 1). -/
structure Trial where
  file : String
  desired_level : ℚ
  deriving DecidableEq, Repr

/-- The presentation request issued by `controller.start_task`, first-trial
path (controller.py lines 283-291): the trial counter is 0,
`_calc_level(matrix.iloc[0, 1])` runs, then `present_audio` is called with
`pres_level` read back from the just-updated `adjusted_level_dB`. `none`
when the matrix is empty (the code would fail on the iloc access). -/
def start_task_request (pars : LevelPars) (matrix : List Trial) :
    Option (String × ℚ) :=
  match matrix with
  | [] => none
  | t :: _ =>
      some (t.file, (calc_level pars t.desired_level).adjusted_level_dB)

/-- The presentation request issued by `controller._on_submit`,
subsequent-trial path (controller.py lines 333-345): the trial counter is
incremented first; when it is still below `matrix.shape[0]`,
`_calc_level(matrix.iloc[counter, 1])` runs, then `present_audio` is called
with `pres_level` read back from the just-updated `adjusted_level_dB`;
otherwise the task ends. -/
def on_submit_request (pars : LevelPars) (matrix : List Trial)
    (trial_counter : Nat) : Option (String × ℚ) :=
  if h : trial_counter + 1 < matrix.length then
    let t := matrix.get ⟨trial_counter + 1, h⟩
    some (t.file, (calc_level pars t.desired_level).adjusted_level_dB)
  else none

/-- The `save_list` of `controller._save_trial_data` (controller.py lines
366-368): the session-parameter keys selected for the saved trial record. -/
def save_list : List String :=
  ["subject", "condition", "randomize", "repetitions", "slm_reading",
   "cal_level_dB", "slm_offset", "desired_level_dB", "adjusted_level_dB"]

/-- Python `converted[k]`: look a key up in the converted session-parameter
mapping. -/
def lookupKey (pars : List (String × α)) (k : String) : Option α :=
  (pars.find? fun p => p.1 = k).map Prod.snd

/-- The dict comprehension `dict((k, converted[k]) for k in save_list)` of
`controller._save_trial_data`: pair each requested key with its value,
raising KeyError at the first missing key. -/
def selectKeys (pars : List (String × α)) :
    List String → Except PyExc (List (String × α))
  | [] => .ok []
  | k :: ks =>
      match lookupKey pars k with
      | none => .error .keyError
      | some v =>
          match selectKeys pars ks with
          | .error e => .error e
          | .ok rest => .ok ((k, v) :: rest)

/-- `controller._save_trial_data`: build the record of selected
session-parameter values and hand it to `csvmodel.save_record`. The saved
record's keys are exactly `save_list`. -/
def save_trial_data (pars : List (String × α)) :
    Except PyExc (List (String × α)) :=
  selectKeys pars save_list

/-- A session-parameter mapping holding every key of `save_list` (values are
immaterial and set to 0). -/
def examplePars : List (String × Int) :=
  save_list.map fun k => (k, 0)

/-- The attributes a constructed `FileHandler` stores
(models/filehandler.py lines 32-39). -/
structure FileHandlerState where
  filename : String
  data_directory : String
  deriving DecidableEq, Repr

/-- Python `str.endswith(suffix)`: the string's characters end with the
suffix's characters. -/
def pyEndsWith (s suffix : String) : Bool :=
  suffix.data.isSuffixOf s.data

/-- `FileHandler.__init__` (models/filehandler.py lines 22-39): raises a bare
`Exception("Invalid file format!")` unless the filename ends with the
subclass's `ext` string; otherwise stores the filename and the data
directory (the `data_directory` kwarg, defaulting to "Data"). -/
def fileHandlerInit (ext filename : String)
    (data_directory : Option String) : Except PyExc FileHandlerState :=
  if pyEndsWith filename ext then
    .ok ⟨filename, data_directory.getD "Data"⟩
  else
    .error .genericExc

/-- `CSVFile.ext` (models/filehandler.py line 103): the string "csv", with
no dot. -/
def CSVFile.ext : String := "csv"

/-- A row of a CSV data file as `csv.DictWriter` writes it: the header row
(the field names) or one data row (one record). -/
inductive CSVRow (α : Type)
  | header (fields : List String)
  | data (record : List (String × α))
  deriving DecidableEq, Repr

/-- Whether a CSV row is the header row. -/
def CSVRow.isHeader : CSVRow α → Bool
  | .header _ => true
  | .data _ => false

/-- How many header rows a file holds. -/
def headerCount (rows : List (CSVRow α)) : Nat :=
  (rows.filter CSVRow.isHeader).length

/-- `CSVFile._write` (models/filehandler.py lines 105-123): `newfile = not
self.file.exists()`; the file is opened in append mode (created empty when
missing), `writeheader()` runs iff `newfile`, then `writerow(data)` appends
exactly one data row. The file is modelled as its list of rows, `none` when
it does not exist. -/
def csvWrite (file : Option (List (CSVRow α)))
    (record : List (String × α)) : List (CSVRow α) :=
  match file with
  | none => [.header (record.map Prod.fst), .data record]
  | some rows => rows ++ [.data record]

/-- `FileHandler.save` (models/filehandler.py lines 79-94): creates the data
folder and the file path, checks write access — raising PermissionError when
denied — and then calls `_write`. -/
def fileHandlerSave (writable : Bool) (file : Option (List (CSVRow α)))
    (record : List (String × α)) : Except PyExc (List (CSVRow α)) :=
  if writable then .ok (csvWrite file record) else .error .permissionError

/-- Repeated saves of successive records to the same file. -/
def saveAll (file : Option (List (CSVRow α)))
    (records : List (List (String × α))) : Option (List (CSVRow α)) :=
  records.foldl (fun f r => some (csvWrite f r)) file

theorem intTokens_ok (l : List String)
    (h : ∀ t ∈ l, (pyIntOfString? t).isSome) :
    intTokens l = .ok (l.map fun t => (pyIntOfString? t).getD 0) := by
  induction l with
  | nil => rfl
  | cons t ts ih =>
    obtain ⟨n, hn⟩ := Option.isSome_iff_exists.mp (h t (List.mem_cons_self t ts))
    simp only [intTokens, hn, ih fun x hx => h x (List.mem_cons_of_mem _ hx),
      List.map_cons, Option.getD_some]

theorem intTokens_valueError (l : List String)
    (h : ∃ t ∈ l, pyIntOfString? t = none) :
    intTokens l = .error .valueError := by
  induction l with
  | nil => simp at h
  | cons t ts ih =>
    by_cases h0 : pyIntOfString? t = none
    · simp [intTokens, h0]
    · obtain ⟨n, hn⟩ := Option.ne_none_iff_exists'.mp h0
      have hts : ∃ x ∈ ts, pyIntOfString? x = none := by
        obtain ⟨x, hx, hxn⟩ := h
        rcases List.mem_cons.mp hx with rfl | hx'
        · exact absurd hxn h0
        · exact ⟨x, hx', hxn⟩
      simp [intTokens, hn, ih hts]

/-- C1: after a FileNotFoundError during asset loading, `present_audio` does
NOT short-circuit: `_create_audio_object` swallows the exception (message box
and session dialog, then a plain return), so `present_audio` still invokes
`_play`. With a stale audio object from a previous presentation, the stale
samples are submitted to the device; with no prior audio object, the call
dies with an uncaught AttributeError instead of a classified error. -/
theorem fileNotFound_still_plays :
    (present_audio staleState (.err .fileNotFound) 1).playInvoked = true ∧
    (present_audio staleState (.err .fileNotFound) 1).outcome.submitted
      = some [1] ∧
    (present_audio emptyState (.err .fileNotFound) 1).playInvoked = true ∧
    (present_audio emptyState (.err .fileNotFound) 1).outcome.uncaught
      = some .attributeError := by
  have h1 : format_routing "1" = .ok [1] := by decide
  refine ⟨rfl, ?_, rfl, rfl⟩
  simp [present_audio, create_audio_object, controller_play, h1, staleState,
    staleAudio, Audio.play, Audio.apply_gain, Audio.check_clipping]

theorem stop_audio_none (s : CtrlState) : (stop_audio s).2 = none := by
  rcases s with ⟨obj, dev, routing⟩
  cases obj <;> rfl

/-- C7: `stop_audio` is safe and idempotent from every state: calling stop
before any play (even before any audio object exists) raises nothing, calling
it twice in a row raises nothing, and the same holds from the state left by
any presentation. -/
theorem stop_audio_safe (s : CtrlState) (load : LoadOutcome) (scale : ℚ) :
    (stop_audio s).2 = none ∧
    (stop_audio (stop_audio s).1).2 = none ∧
    (stop_audio (present_audio s load scale).outcome.state).2 = none ∧
    (stop_audio
      (stop_audio (present_audio s load scale).outcome.state).1).2 = none :=
  ⟨stop_audio_none s, stop_audio_none _, stop_audio_none _, stop_audio_none _⟩

/-- C2: whenever clipping is detected after gain application (the device and
routing checks having passed), no samples are submitted to the device, the
in-memory buffer is exactly the gain-applied waveform — every sample
multiplied by the scale factor, never attenuated or otherwise altered as a
fallback — and the controller's Clipping handler plots exactly that
gain-applied waveform for post-mortem inspection. -/
theorem play_clipping_eq (a : Audio) (scale : ℚ) (routing : List Int)
    (hLen : routing.length = a.channel_count)
    (hClip : (a.apply_gain scale).check_clipping = true) :
    a.play scale true routing = ⟨a.apply_gain scale, none, some .clipping⟩ := by
  simp [Audio.play, hLen, hClip]

theorem clipping_no_submission (s : CtrlState) (a : Audio) (scale : ℚ)
    (routing : List Int)
    (hA : s.audioObj = some a)
    (hDev : s.deviceOk = true)
    (hRoute : format_routing s.channel_routing = .ok routing)
    (hLen : routing.length = a.channel_count)
    (hClip : (a.apply_gain scale).check_clipping = true) :
    (controller_play s scale).submitted = none ∧
    (controller_play s scale).plotted = some ((a.apply_gain scale).samples) ∧
    (controller_play s scale).state.audioObj = some (a.apply_gain scale) ∧
    (a.apply_gain scale).samples = a.samples.map (· * scale) := by
  have hp := play_clipping_eq a scale routing hLen hClip
  simp only [controller_play, hRoute, hA, hDev, hp]
  exact ⟨rfl, rfl, rfl, rfl⟩

/-- C2 witness: the clipping path at the concrete input `clipState` with
scale factor 2. -/
theorem clipping_no_submission_witness :
    (controller_play clipState 2).submitted = none ∧
    (controller_play clipState 2).plotted
      = some ((clipAudio.apply_gain 2).samples) ∧
    (controller_play clipState 2).state.audioObj
      = some (clipAudio.apply_gain 2) ∧
    (clipAudio.apply_gain 2).samples = clipAudio.samples.map (· * 2) :=
  clipping_no_submission clipState clipAudio 2 [1] rfl rfl (by decide)
    (by decide)
    (by simp [clipAudio, Audio.apply_gain, Audio.check_clipping])

/-- C4: for all cal_level_dB c and slm_reading_dB s, `compute_offset`
returns exactly c - s, and for every desired level d,
`compute_adjusted_level (d, compute_offset (c, s))` returns d + c - s. -/
theorem offset_level_arithmetic (c s d : ℚ) :
    compute_offset c s = c - s ∧
    compute_adjusted_level d (compute_offset c s) = d + c - s :=
  ⟨rfl, by unfold compute_adjusted_level compute_offset; ring⟩

/-- C8: in both the first-trial path and every subsequent-trial path, the
presented level is recomputed from the current trial's desired level and the
stored offset before the presentation call: whatever stale value
`pars.adjusted_level_dB` holds, the level presented is exactly
`compute_adjusted_level` of the trial's desired level and the offset. -/
theorem level_recomputed_each_trial (pars : LevelPars) (matrix : List Trial)
    (t : Trial) (rest : List Trial) (c : Nat)
    (hm : matrix = t :: rest) (hc : c + 1 < matrix.length) :
    start_task_request pars matrix
      = some (t.file, compute_adjusted_level t.desired_level pars.slm_offset) ∧
    on_submit_request pars matrix c
      = some ((matrix.get ⟨c + 1, hc⟩).file,
          compute_adjusted_level (matrix.get ⟨c + 1, hc⟩).desired_level
            pars.slm_offset) := by
  subst hm
  refine ⟨rfl, ?_⟩
  have hc' : c < rest.length := by
    simpa [Nat.succ_lt_succ_iff] using hc
  simp [on_submit_request, hc, calc_level, hc']

/-- C8 witness: a two-trial matrix at concrete levels, with a deliberately
stale `adjusted_level_dB` of 999 in the parameter store. -/
theorem level_recomputed_witness :
    start_task_request ⟨2, 999⟩ [⟨"a.wav", 65⟩, ⟨"b.wav", 70⟩]
      = some ("a.wav", compute_adjusted_level 65 2) ∧
    on_submit_request ⟨2, 999⟩ [⟨"a.wav", 65⟩, ⟨"b.wav", 70⟩] 0
      = some (([⟨"a.wav", 65⟩, ⟨"b.wav", (70 : ℚ)⟩] :
            List Trial).get ⟨1, by decide⟩ |>.file,
          compute_adjusted_level
            (([⟨"a.wav", 65⟩, ⟨"b.wav", (70 : ℚ)⟩] :
              List Trial).get ⟨1, by decide⟩ |>.desired_level) 2) :=
  level_recomputed_each_trial ⟨2, 999⟩ _ ⟨"a.wav", 65⟩ [⟨"b.wav", 70⟩] 0
    rfl (by decide)

theorem selectKeys_fst (pars : List (String × α)) (ks : List String)
    (r : List (String × α)) (h : selectKeys pars ks = .ok r) :
    r.map Prod.fst = ks := by
  induction ks generalizing r with
  | nil => cases h; rfl
  | cons k ks ih =>
    revert h
    unfold selectKeys
    cases lookupKey pars k with
    | none => intro h; cases h
    | some v =>
      cases hrec : selectKeys pars ks with
      | error e => intro h; cases h
      | ok rest =>
        intro h
        cases h
        simpa using ih rest hrec

/-- C5: for every successfully saved trial record, the record's keys are
exactly `save_list` — which contains the calibration metadata (slm_reading,
cal_level_dB, slm_offset, desired and adjusted levels) but NOT the
listener's response: the yes/no response value is never written to the saved
trial record. -/
theorem trial_record_omits_response (pars : List (String × Int))
    (record : List (String × Int))
    (h : save_trial_data pars = .ok record) :
    record.map Prod.fst = save_list ∧
    "response" ∉ record.map Prod.fst ∧
    "slm_reading" ∈ record.map Prod.fst ∧
    "cal_level_dB" ∈ record.map Prod.fst ∧
    "slm_offset" ∈ record.map Prod.fst ∧
    "desired_level_dB" ∈ record.map Prod.fst ∧
    "adjusted_level_dB" ∈ record.map Prod.fst := by
  have hk := selectKeys_fst pars save_list record h
  rw [hk]
  refine ⟨rfl, ?_, ?_, ?_, ?_, ?_, ?_⟩ <;> decide

/-- C5 witness: the saved record at the concrete mapping `examplePars`. -/
theorem trial_record_omits_response_witness :
    (examplePars.map Prod.fst = save_list ∧
     "response" ∉ examplePars.map Prod.fst ∧
     "slm_reading" ∈ examplePars.map Prod.fst ∧
     "cal_level_dB" ∈ examplePars.map Prod.fst ∧
     "slm_offset" ∈ examplePars.map Prod.fst ∧
     "desired_level_dB" ∈ examplePars.map Prod.fst ∧
     "adjusted_level_dB" ∈ examplePars.map Prod.fst) :=
  trial_record_omits_response examplePars examplePars (by decide)

/-- C9: constructing a FileHandler raises exactly when the filename does not
end with the subclass's `ext` string; since `CSVFile.ext` is "csv" with no
dot, any filename whose final characters are "csv" — including the dotless
"datacsv" — is accepted as a valid CSV filename. -/
theorem csv_filename_suffix_check (filename : String) :
    (fileHandlerInit CSVFile.ext filename none = .error .genericExc
      ↔ ¬ pyEndsWith filename "csv") ∧
    fileHandlerInit CSVFile.ext "datacsv" none = .ok ⟨"datacsv", "Data"⟩ := by
  constructor
  · by_cases h : pyEndsWith filename "csv" <;>
      simp [fileHandlerInit, CSVFile.ext, h]
  · have h : pyEndsWith "datacsv" "csv" = true := by decide
    simp [fileHandlerInit, CSVFile.ext, h]

theorem headerCount_append (xs ys : List (CSVRow α)) :
    headerCount (xs ++ ys) = headerCount xs + headerCount ys := by
  simp [headerCount, List.filter_append]

theorem saveAll_some_headerCount (records : List (List (String × α)))
    (rows : List (CSVRow α)) :
    ∃ out, saveAll (some rows) records = some out ∧
      headerCount out = headerCount rows := by
  induction records generalizing rows with
  | nil => exact ⟨rows, rfl, rfl⟩
  | cons r rs ih =>
    obtain ⟨out, h1, h2⟩ := ih (rows ++ [CSVRow.data r])
    refine ⟨out, h1, ?_⟩
    rw [h2, headerCount_append]
    simp [headerCount, CSVRow.isHeader]

/-- C10: a successful save to an existing file appends exactly one data row
and leaves every previously written row unchanged, with no header; a
successful save to a nonexistent file writes the header row first and then
the one data row; and across any sequence of repeated saves starting from a
nonexistent file, the file receives at most one header row. -/
theorem csv_append_one_row (rows : List (CSVRow Int))
    (record : List (String × Int))
    (records : List (List (String × Int))) :
    fileHandlerSave true (some rows) record
      = .ok (rows ++ [CSVRow.data record]) ∧
    fileHandlerSave true none record
      = .ok [CSVRow.header (record.map Prod.fst), CSVRow.data record] ∧
    headerCount ((saveAll none records).getD []) ≤ 1 ∧
    headerCount ((saveAll (some rows) records).getD rows)
      = headerCount rows := by
  refine ⟨rfl, rfl, ?_, ?_⟩
  · cases records with
    | nil => simp [saveAll, headerCount]
    | cons r rs =>
      obtain ⟨out, h1, h2⟩ := saveAll_some_headerCount rs
        [CSVRow.header (r.map Prod.fst), CSVRow.data r]
      have h0 : saveAll none (r :: rs)
          = saveAll (some [CSVRow.header (r.map Prod.fst), CSVRow.data r]) rs :=
        rfl
      rw [h0, h1]
      calc headerCount ((some out).getD []) = headerCount out := rfl
        _ = headerCount [CSVRow.header (r.map Prod.fst), CSVRow.data r] := h2
        _ ≤ 1 := by simp [headerCount, CSVRow.isHeader]
  · obtain ⟨out, h1, h2⟩ := saveAll_some_headerCount records rows
    rw [h1]
    exact h2

/-- C6: for every text whose whitespace-separated tokens are all decimal
integer literals, `_format_routing` returns the list of those integers in
token order, with length equal to the number of tokens; in particular
parsing "1 2" yields the 2-element sequence [1, 2]. -/
theorem routing_parse_tokens (text : String)
    (h : ∀ t ∈ pySplit text, (pyIntOfString? t).isSome) :
    ∃ ns, format_routing text = .ok ns ∧
      ns.length = (pySplit text).length ∧
      (∀ i (hi : i < ns.length) (hj : i < (pySplit text).length),
        pyIntOfString? ((pySplit text).get ⟨i, hj⟩) = some (ns.get ⟨i, hi⟩)) ∧
      format_routing "1 2" = .ok [1, 2] := by
  refine ⟨(pySplit text).map fun t => (pyIntOfString? t).getD 0,
    intTokens_ok _ h, List.length_map _ _, ?_, by decide⟩
  intro i hi hj
  obtain ⟨n, hn⟩ :=
    Option.isSome_iff_exists.mp
      (h ((pySplit text).get ⟨i, hj⟩) (List.get_mem _ _ _))
  simp only [List.get_eq_getElem] at hn
  simp [List.getElem_map, hn]

/-- C6 witness: the parse of "1 2" at concrete input. -/
theorem routing_parse_tokens_witness :
    ∃ ns, format_routing "1 2" = .ok ns ∧
      ns.length = (pySplit "1 2").length ∧
      (∀ i (hi : i < ns.length) (hj : i < (pySplit "1 2").length),
        pyIntOfString? ((pySplit "1 2").get ⟨i, hj⟩) = some (ns.get ⟨i, hi⟩)) ∧
      format_routing "1 2" = .ok [1, 2] :=
  routing_parse_tokens "1 2" (by decide)

/-- C3 counterexample: on the routing text "1 a", whose token "a" is
non-numeric, `_format_routing` raises the unclassified ValueError from
`int()`, not the classified `InvalidRouting` the claim states. -/
theorem routing_nonnumeric_counterexample :
    pyIntOfString? "a" = none ∧
    format_routing "1 a" = .error .valueError ∧
    format_routing "1 a" ≠ .error .invalidRouting := by
  decide

/-- C3 amended: parsing splits on whitespace and converts each token to an
integer channel index, and whenever any token is non-numeric it fails with
Python's unclassified ValueError — an exception that the except clauses of
`controller._play` do not catch (only `InvalidAudioDevice`, `InvalidRouting`
and `Clipping` are caught), so the failure is not surfaced as the classified
`InvalidRouting`. -/
theorem routing_nonnumeric_unclassified (text : String)
    (h : ∃ t ∈ pySplit text, pyIntOfString? t = none) :
    format_routing text = .error .valueError ∧
    playCaught .valueError = false :=
  ⟨intTokens_valueError _ h, rfl⟩

/-- C3 witness: the amended statement at the concrete routing text "1 a". -/
theorem routing_nonnumeric_witness :
    format_routing "1 a" = .error .valueError ∧
    playCaught .valueError = false :=
  routing_nonnumeric_unclassified "1 a" ⟨"a", by decide, by decide⟩
